import Mathlib

/-!
Shallow embedding of the k8s-experiment controller's state-synchronization,
job-construction and parameter-generation code.

Conventions of the embedding:
* Go maps with string keys are modelled as association lists
  (`List (String × String)`); a `nil` map, where the distinction matters,
  is modelled as `Option` with `none`.
* Go slices are Lean lists; a `nil` slice is the empty list except where
  the code distinguishes `nil` from empty.
* Machine integers are modelled as `Int`; the explicit 32-bit clamp in
  `ToClusterTrial` is translated literally with its boundary constants.
* Fallible Go functions returning `error` are modelled with `Except String`;
  a Go runtime fault (panic, e.g. writing to a nil map) is modelled by an
  `Option` result with `none` for the fault.
* External library calls (JSON marshalling, strategic merge patch,
  float parsing, the status-update helper) are modelled as explicit
  function arguments, so theorems quantify over their behaviour.
-/

/-- Go `k8s.io/apimachinery` `intstr.IntOrString`: a tagged int-or-string value. -/
inductive IntOrString where
  | int (v : Int)
  | str (s : String)
deriving DecidableEq, Repr

/-- Go `optimize-go` `numstr.NumberOrString`: a remote assignment value that is
either a (64-bit) number or a string.  `isString` in the Go code corresponds
to the `str` constructor. -/
inductive NumberOrString where
  | num (v : Int)
  | str (s : String)
deriving DecidableEq, Repr

/-- Set `k ↦ v` in an association list modelling a Go string map:
overwrite an existing entry, append a fresh one otherwise. -/
def setKV (m : List (String × String)) (k v : String) : List (String × String) :=
  if m.any (fun p => p.1 = k) then
    m.map (fun p => if p.1 = k then (k, v) else p)
  else
    m ++ [(k, v)]

/-- Delete key `k` from an association list modelling a Go string map. -/
def removeKV (m : List (String × String)) (k : String) : List (String × String) :=
  m.filter (fun p => p.1 ≠ k)

/-- Go `strings.TrimPrefix`: drop `pre` from the front of `s` when present. -/
def trimKeyPre (pre s : String) : String :=
  if s.startsWith pre then s.drop pre.length else s

/- ===== Cluster-side experiment model (`api/v1beta1`) ===== -/

/-- Cluster-side experiment parameter (`redskyv1beta1.Parameter`):
integer bounds, optional categorical values, optional baseline. -/
structure ExpParameter where
  name : String
  min : Int
  max : Int
  values : List String
  baseline : Option IntOrString
deriving DecidableEq, Repr

/-- Cluster-side metric declaration (name plus optimization directives). -/
structure ExpMetric where
  name : String
  minimize : Bool
  optimize : Option Bool
deriving DecidableEq, Repr

/-- Cluster-side named optimization setting. -/
structure ExpOptimization where
  name : String
  value : String
deriving DecidableEq, Repr

/-- Cluster-side order constraint between two parameters. -/
structure ExpOrderConstraint where
  lowerParameter : String
  upperParameter : String
deriving DecidableEq, Repr

/-- One weighted parameter of a sum constraint.  The weight is a
`resource.Quantity`; it is modelled by its milli-value (an integer). -/
structure ExpSumConstraintParameter where
  name : String
  weightMilli : Int
deriving DecidableEq, Repr

/-- Cluster-side sum constraint; the bound is modelled by its milli-value. -/
structure ExpSumConstraint where
  isUpperBound : Bool
  boundMilli : Int
  parameters : List ExpSumConstraintParameter
deriving DecidableEq, Repr

/-- Cluster-side constraint: exactly one of `order` / `sum` is populated. -/
structure ExpConstraint where
  name : String
  order : Option ExpOrderConstraint
  sum : Option ExpSumConstraint
deriving DecidableEq, Repr

/-- Cluster-side experiment spec fields used by the synchronizer. -/
structure ExperimentSpec where
  parameters : List ExpParameter
  metrics : List ExpMetric
  optimization : List ExpOptimization
  constraints : List ExpConstraint
deriving DecidableEq, Repr

/-- Cluster-side experiment object.  `annotations` is an `Option` because the
Go `map` can be nil; `creationTime` models `CreationTimestamp.Time`. -/
structure Experiment where
  name : String
  creationTime : Int
  annotations : Option (List (String × String))
  labels : List (String × String)
  finalizers : List String
  spec : ExperimentSpec
deriving DecidableEq, Repr

/- ===== Remote (API-side) experiment model (`optimize-go` redskyapi) ===== -/

/-- Remote parameter type tag. -/
inductive ParameterType where
  | integer
  | categorical
deriving DecidableEq, Repr

/-- Remote integer bounds; `json.Number` is modelled as its decimal string. -/
structure RemoteBounds where
  min : String
  max : String
deriving DecidableEq, Repr

/-- Remote parameter record. -/
structure RemoteParameter where
  type : ParameterType
  name : String
  values : List String
  bounds : Option RemoteBounds
deriving DecidableEq, Repr

/-- Remote metric record. -/
structure RemoteMetric where
  name : String
  minimize : Bool
  optimize : Option Bool
deriving DecidableEq, Repr

/-- Remote named optimization setting. -/
structure RemoteOptimization where
  name : String
  value : String
deriving DecidableEq, Repr

/-- Remote constraint type tag. -/
inductive RemoteConstraintType where
  | order
  | sum
deriving DecidableEq, Repr

/-- Remote sum-constraint parameter; the weight `float64(MilliValue())/1000`
is modelled as the exact rational. -/
structure RemoteSumConstraintParameter where
  name : String
  weight : Rat
deriving DecidableEq, Repr

/-- Remote sum constraint. -/
structure RemoteSumConstraint where
  isUpperBound : Bool
  bound : Rat
  parameters : List RemoteSumConstraintParameter
deriving DecidableEq, Repr

/-- Remote order constraint. -/
structure RemoteOrderConstraint where
  lowerParameter : String
  upperParameter : String
deriving DecidableEq, Repr

/-- Remote constraint record. -/
structure RemoteConstraint where
  name : String
  constraintType : RemoteConstraintType
  order : Option RemoteOrderConstraint
  sum : Option RemoteSumConstraint
deriving DecidableEq, Repr

/-- Remote experiment record. -/
structure RemoteExperiment where
  lastModified : Int
  selfURL : String
  nextTrialURL : String
  labels : List (String × String)
  optimization : List RemoteOptimization
  parameters : List RemoteParameter
  constraints : List RemoteConstraint
  metrics : List RemoteMetric
deriving DecidableEq, Repr

/-- One remote assignment (parameter name to number-or-string value). -/
structure RemoteAssignment where
  parameterName : String
  value : NumberOrString
deriving DecidableEq, Repr

/-- Remote trial-assignments record (a suggestion), with labels and self URL. -/
structure TrialAssignments where
  labels : List (String × String)
  assignments : List RemoteAssignment
  selfURL : String
deriving DecidableEq, Repr

/- ===== CheckDefinition (internal/validation) ===== -/

/-- Go `CheckDefinition`: the cluster and API experiment definitions are
compatible when the parameter lists have equal length and every local
parameter name also occurs remotely, and the same for metrics.  The Go map
built from the local names is modelled as a `Finset String` (later inserts of
the same key collapse, as in a Go map); deleting the remote names is a fold
of `Finset.erase`. -/
def CheckDefinition (exp : Experiment) (ee : RemoteExperiment) : Except String Unit :=
  if exp.spec.parameters.length = ee.parameters.length then
    let params : Finset String :=
      ((exp.spec.parameters.map (fun p => p.name)).toFinset : Finset String)
    let params := ee.parameters.foldl (fun s p => s.erase p.name) params
    if 0 < params.card then
      Except.error "server and cluster have incompatible parameter definitions"
    else
      if exp.spec.metrics.length = ee.metrics.length then
        let metrics : Finset String :=
          ((exp.spec.metrics.map (fun m => m.name)).toFinset : Finset String)
        let metrics := ee.metrics.foldl (fun s m => s.erase m.name) metrics
        if 0 < metrics.card then
          Except.error "server and cluster have incompatible metric definitions"
        else
          Except.ok ()
      else
        Except.error "server and cluster have incompatible metric definitions"
  else
    Except.error "server and cluster have incompatible parameter definitions"

/- ===== FromCluster (internal/server): experiment → remote record ===== -/

/-- The client-side omission test of the parameter loop: a parameter with
`Min == Max` and no categorical values is skipped. -/
def paramOmitted (p : ExpParameter) : Bool :=
  p.min == p.max && p.values.isEmpty

/-- Go `stringSliceContains` from internal/server. -/
def stringSliceContains (a : List String) (x : String) : Bool :=
  a.any (fun s => s == x)

/-- Translation of one kept parameter to its remote record (`json.Number`
bounds are decimal strings, as produced by `strconv.FormatInt`). -/
def toRemoteParameter (p : ExpParameter) : RemoteParameter :=
  if 0 < p.values.length then
    { type := ParameterType.categorical, name := p.name, values := p.values, bounds := none }
  else
    { type := ParameterType.integer, name := p.name, values := [],
      bounds := some { min := toString p.min, max := toString p.max } }

/-- Baseline handling for one kept parameter: a string baseline must be a
member of the declared values, an integer baseline must be within
`[min, max]`; otherwise the whole conversion fails. -/
def baselineAssignment (p : ExpParameter) : Except String (Option RemoteAssignment) :=
  match p.baseline with
  | none => Except.ok none
  | some (IntOrString.str vs) =>
    if stringSliceContains p.values vs then
      Except.ok (some { parameterName := p.name, value := NumberOrString.str vs })
    else
      Except.error ("baseline out of range for parameter '" ++ p.name ++ "'")
  | some (IntOrString.int vi) =>
    if vi < p.min || vi > p.max then
      Except.error ("baseline out of range for parameter '" ++ p.name ++ "'")
    else
      Except.ok (some { parameterName := p.name, value := NumberOrString.num vi })

/-- The parameter loop of `FromCluster`: skips degenerate parameters, emits
remote parameters in order, and accumulates baseline assignments. -/
def processParameters :
    List ExpParameter → Except String (List RemoteParameter × List RemoteAssignment)
  | [] => Except.ok ([], [])
  | p :: rest =>
    if paramOmitted p then processParameters rest
    else do
      let a ← baselineAssignment p
      let (ps, asgs) ← processParameters rest
      Except.ok (toRemoteParameter p :: ps, a.toList ++ asgs)

/-- The constraint loop of `FromCluster`: order constraints are copied,
sum constraints keep their bound and the nonzero-weight parameters, with
`float64(MilliValue())/1000` modelled as the exact rational. -/
def fromClusterConstraints : List ExpConstraint → List RemoteConstraint
  | [] => []
  | c :: rest =>
    match c.order with
    | some o =>
      { name := c.name, constraintType := RemoteConstraintType.order,
        order := some { lowerParameter := o.lowerParameter, upperParameter := o.upperParameter },
        sum := none } :: fromClusterConstraints rest
    | none =>
      match c.sum with
      | some s =>
        { name := c.name, constraintType := RemoteConstraintType.sum, order := none,
          sum := some { isUpperBound := s.isUpperBound,
                        bound := (s.boundMilli : Rat) / 1000,
                        parameters := (s.parameters.filter (fun p => p.weightMilli != 0)).map
                          (fun p => { name := p.name, weight := (p.weightMilli : Rat) / 1000 }) } }
          :: fromClusterConstraints rest
      | none => fromClusterConstraints rest

/-- Key of the experiment-URL entry of the experiment's annotations map. -/
def annotationExperimentURL : String := "redskyops.dev/experiment-url"

/-- Key of the next-trial-URL entry of the experiment's annotations map. -/
def annotationNextTrialURL : String := "redskyops.dev/next-trial-url"

/-- Key of the report-trial-URL entry of the trial's annotations map. -/
def annotationReportTrialURL : String := "redskyops.dev/report-trial-url"

/-- Read `m[k]` from a possibly-nil Go string map (a nil or missing key
reads as the empty string). -/
def getKV (m : Option (List (String × String))) (k : String) : String :=
  match m with
  | none => ""
  | some l => (((l.find? (fun p => p.1 == k)).map (fun p => p.2)).getD "")

/-- Go `FromCluster` converts cluster state to API state: metadata, labels
(with the `redskyops.dev/` key front trimmed), optimization settings,
parameters (with baseline validation), constraints and metrics.  The final
check demands the baseline cover all of the sent parameters or none. -/
def FromCluster (e : Experiment) :
    Except String (String × RemoteExperiment × Option TrialAssignments) := do
  let (params, asgs) ← processParameters e.spec.parameters
  let out : RemoteExperiment := {
    lastModified := e.creationTime
    selfURL := getKV e.annotations annotationExperimentURL
    nextTrialURL := getKV e.annotations annotationNextTrialURL
    labels :=
      if 0 < e.labels.length then
        e.labels.map (fun kv => (trimKeyPre "redskyops.dev/" kv.1, kv.2))
      else []
    optimization := e.spec.optimization.map (fun o => { name := o.name, value := o.value })
    parameters := params
    constraints := fromClusterConstraints e.spec.constraints
    metrics := e.spec.metrics.map (fun m =>
      { name := m.name, minimize := m.minimize, optimize := m.optimize }) }
  if asgs.length = 0 then
    Except.ok (e.name, out, none)
  else if asgs.length ≠ params.length then
    Except.error "baseline must be specified on all or none of the parameters"
  else
    Except.ok (e.name, out,
      some { labels := [("baseline", "true")], assignments := asgs, selfURL := "" })

/- ===== ToCluster (internal/server): remote record → experiment ===== -/

/-- The synchronization finalizer added by the synchronizer. -/
def serverFinalizer : String := "serverFinalizer.redskyops.dev"

/-- Go `controllerutil.AddFinalizer`: append the finalizer when missing. -/
def addFinalizer (fs : List String) : List String :=
  if fs.contains serverFinalizer then fs else fs ++ [serverFinalizer]

/-- Go `ToCluster` converts API state to cluster state.  A nil annotations map
is initialized first, then the URL entries are written. -/
def ToCluster (exp : Experiment) (ee : RemoteExperiment) : Experiment :=
  let ann := match exp.annotations with
    | none => ([] : List (String × String))
    | some a => a
  let ann := setKV ann annotationExperimentURL ee.selfURL
  let ann := setKV ann annotationNextTrialURL ee.nextTrialURL
  { exp with
    annotations := some ann
    spec := { exp.spec with
      optimization := ee.optimization.map (fun o => { name := o.name, value := o.value }) }
    finalizers := addFinalizer exp.finalizers }

/- ===== Job model (`batchv1.Job` as used by the job builder) ===== -/

/-- A container environment variable. -/
structure EnvVar where
  name : String
  value : String
deriving DecidableEq, Repr

/-- A pod container (the fields the job builder touches). -/
structure Container where
  name : String := ""
  image : String := ""
  command : List String := []
  args : List String := []
  env : List EnvVar := []
deriving DecidableEq, Repr

/-- A pod spec (restart policy and containers). -/
structure PodSpec where
  restartPolicy : String := ""
  containers : List Container := []
deriving DecidableEq, Repr

/-- A pod template spec (labels and pod spec). -/
structure PodTemplateSpec where
  labels : List (String × String) := []
  spec : PodSpec := {}
deriving DecidableEq, Repr

/-- A job spec: optional backoff limit plus pod template.  `BackoffLimit` is
`*int32` in Go, hence `Option Int` here, so that nil is distinguishable
from zero. -/
structure JobSpec where
  backoffLimit : Option Int := none
  template : PodTemplateSpec := {}
deriving DecidableEq, Repr

/-- A `batchv1.Job` (object meta plus spec). -/
structure Job where
  name : String := ""
  namespace_ : String := ""
  labels : List (String × String) := []
  spec : JobSpec := {}
deriving DecidableEq, Repr

/- ===== Trial model (`api/v1beta1` Trial) ===== -/

/-- A cluster-side trial assignment (name plus int-or-string value). -/
structure Assignment where
  name : String
  value : IntOrString
deriving DecidableEq, Repr

/-- A collected metric value on the trial spec; `Value` and `Error` are the
string fields parsed by `FromClusterTrial`. -/
structure TrialValue where
  name : String
  value : String
  error : String
deriving DecidableEq, Repr

/-- A `corev1.ObjectReference` (the fields the patch targeting uses). -/
structure ObjectReference where
  kind : String := ""
  name : String := ""
  namespace_ : String := ""
  apiVersion : String := ""
deriving DecidableEq, Repr

/-- A recorded patch operation on the trial status. -/
structure PatchOperation where
  targetRef : ObjectReference
  patchType : String
  data : String
deriving DecidableEq, Repr

/-- A trial status condition. -/
structure TrialCondition where
  type : String
  status : String
  reason : String
  message : String
deriving DecidableEq, Repr

/-- The job template carried on a trial spec (`JobTemplate`): object meta
(name, labels) plus a job spec. -/
structure JobTemplateSpec where
  name : String := ""
  labels : List (String × String) := []
  spec : JobSpec := {}
deriving DecidableEq, Repr

/-- Trial spec fields used by the synchronizer and the job builder.
Durations (`ApproximateRuntime`, `StartTimeOffset`) are modelled in whole
seconds. -/
structure TrialSpec where
  assignments : List Assignment := []
  values : List TrialValue := []
  jobTemplate : Option JobTemplateSpec := none
  approximateRuntime : Option Nat := none
  startTimeOffset : Option Nat := none
deriving DecidableEq, Repr

/-- Trial status fields used by the synchronizer and the job builder. -/
structure TrialStatus where
  patchOperations : List PatchOperation := []
  conditions : List TrialCondition := []
  startTime : Option Int := none
  completionTime : Option Int := none
deriving DecidableEq, Repr

/-- A cluster-side trial.  `annotations` and `labels` are `Option` because
the Go maps can be nil; `experimentName` models
`ExperimentNamespacedName().Name` (the owning experiment). -/
structure Trial where
  name : String := ""
  generateName : String := ""
  namespace_ : String := ""
  experimentName : String := ""
  annotations : Option (List (String × String)) := none
  labels : Option (List (String × String)) := none
  finalizers : List String := []
  spec : TrialSpec := {}
  status : TrialStatus := {}
deriving DecidableEq, Repr

/- ===== ToClusterTrial (internal/server): suggestion → trial ===== -/

/-- Go `math.MaxInt32`. -/
def maxInt32 : Int := 2147483647

/-- Go `math.MinInt32`. -/
def minInt32 : Int := -2147483648

/-- The value written for one remote assignment: strings pass through, and a
64-bit numeric value is clamped into the 32-bit signed range (the switch on
`val` in `ToClusterTrial`). -/
def toClusterAssignmentValue (v : NumberOrString) : IntOrString :=
  match v with
  | NumberOrString.str s => IntOrString.str s
  | NumberOrString.num val =>
    if maxInt32 < val then IntOrString.int maxInt32
    else if val < minInt32 then IntOrString.int minInt32
    else IntOrString.int val

/-- One remote assignment converted to the cluster-side assignment list
entry. -/
def toClusterAssignment (a : RemoteAssignment) : Assignment :=
  { name := a.parameterName, value := toClusterAssignmentValue a.value }

/-- Go `path.Base` of a URL-ish string: everything after the last slash, with
trailing slashes removed; empty input gives ".". -/
def pathBase (s : String) : String :=
  if s = "" then "."
  else
    let t := s.dropRightWhile (fun c => c = '/')
    if t = "" then "/"
    else (t.splitOn "/").getLastD t

/-- Left-pad a decimal string with zeros to the given width. -/
def padZeros (s : String) (w : Nat) : String :=
  String.mk (List.replicate (w - s.length) '0') ++ s

/-- Go `fmt.Sprintf("%03d", n)`: zero-pad to width 3 (a sign counts toward
the width). -/
def fmt03 (n : Int) : String :=
  if n < 0 then "-" ++ padZeros (toString (-n)) 2 else padZeros (toString n) 3

/-- The trial-name derivation of `ToClusterTrial`: take the base of the
suggestion's self URL; when it parses as a decimal integer
(`strconv.ParseInt`, modelled by `String.toInt?`) format it zero-padded,
otherwise append it verbatim. -/
def trialNameFromURL (generateName url : String) : String :=
  let base := pathBase url
  match base.toInt? with
  | some num => generateName ++ fmt03 num
  | none => generateName ++ base

/-- Go `ToClusterTrial` converts a remote suggestion into cluster trial state.
The first step writes the report-trial URL into the annotations map; when
that map is nil the Go code faults (assignment to a nil map), modelled by
the `none` result.  `trial.UpdateStatus` lives outside the embedded slice
and is passed in as `updateStatus`. -/
def ToClusterTrial (updateStatus : Trial → Trial) (t : Trial)
    (suggestion : TrialAssignments) : Option Trial :=
  match t.annotations with
  | none => none
  | some ann =>
    let t := { t with annotations := some (setKV ann annotationReportTrialURL suggestion.selfURL) }
    let t :=
      if t.name = "" ∧ t.generateName ≠ "" ∧ suggestion.selfURL ≠ "" then
        { t with name := trialNameFromURL t.generateName suggestion.selfURL }
      else t
    let t := { t with spec := { t.spec with
      assignments := t.spec.assignments ++ suggestion.assignments.map toClusterAssignment } }
    let t :=
      if 0 < suggestion.labels.length then
        { t with labels := some (suggestion.labels.foldl
            (fun m kv => if kv.2 ≠ "" then setKV m kv.1 kv.2 else removeKV m kv.1)
            (t.labels.getD [])) }
      else t
    let t := updateStatus t
    some { t with finalizers := addFinalizer t.finalizers }

/- ===== FromClusterTrial (internal/server): trial → remote values ===== -/

/-- The trial-failed condition type (`redskyv1beta1.TrialFailed`). -/
def trialFailedType : String := "redskyops.dev/trial-failed"

/-- Go `corev1.ConditionTrue`. -/
def conditionTrue : String := "True"

/-- Whether a condition marks the trial failed. -/
def isFailedCond (c : TrialCondition) : Bool :=
  c.type == trialFailedType && c.status == conditionTrue

/-- One step of the condition scan of `FromClusterTrial`: a matching
condition overwrites the failure flag, reason and message. -/
def failedFoldStep (acc : Bool × String × String) (c : TrialCondition) :
    Bool × String × String :=
  if isFailedCond c then (true, c.reason, c.message) else acc

/-- A reported remote metric value; `α` is the target of the external
float parser (`strconv.ParseFloat`), which is passed in as a function. -/
structure RemoteValue (α : Type) where
  metricName : String
  value : α
  error : Option α
deriving DecidableEq, Repr

/-- The remote trial-values record produced by `FromClusterTrial`. -/
structure TrialValues (α : Type) where
  startTime : Option Int
  completionTime : Option Int
  failed : Bool
  failureReason : String
  failureMessage : String
  values : List (RemoteValue α)
deriving DecidableEq, Repr

/-- The value loop of `FromClusterTrial`: keep the spec values whose `Value`
string parses, carrying the parsed `Error` when it parses too. -/
def collectValues {α : Type} (parse : String → Option α) (vs : List TrialValue) :
    List (RemoteValue α) :=
  vs.filterMap (fun v =>
    (parse v.value).map (fun fv =>
      { metricName := v.name, value := fv, error := parse v.error }))

/-- Go `FromClusterTrial` converts cluster trial state to the remote values
record: timestamps, the failure scan over the status conditions, and the
collected metric values (recorded only when the trial did not fail). -/
def FromClusterTrial {α : Type} (parse : String → Option α) (t : Trial) :
    TrialValues α :=
  let f := t.status.conditions.foldl failedFoldStep (false, "", "")
  { startTime := t.status.startTime
    completionTime := t.status.completionTime
    failed := f.1
    failureReason := f.2.1
    failureMessage := f.2.2
    values := if f.1 then [] else collectValues parse t.spec.values }

/- ===== replicaParameter (api generation): replica field → parameter ===== -/

/-- Resource identity handed to the parameter namer (`yaml.ResourceMeta`). -/
structure ResourceMeta where
  kind : String
  name : String
deriving DecidableEq, Repr

/-- A parameter-namer function (`ParameterNamer`): resource meta, field path
and suffix to a parameter name. -/
def ParameterNamer : Type := ResourceMeta → List String → String → String

/-- The tunable-field node backing a replica parameter (`pnode`): resource
meta, field path, and the scalar value already decoded to a 64-bit `int`
(`p.value.Decode(&v)`; the claims only concern fields whose value decodes). -/
structure ReplicaParameter where
  meta : ResourceMeta
  fieldPath : List String
  value : Int
deriving DecidableEq, Repr

/-- Go two's-complement conversion to a signed 32-bit value: the `int32(val)`
cast performed by `intstr.FromInt` on the decoded 64-bit value. -/
def int32Of (v : Int) : Int :=
  (v + 2147483648) % 4294967296 - 2147483648

/-- Go `replicaParameter.Parameters`: a non-positive decoded value yields no
parameter (and no error); otherwise `intstr.FromInt` truncates the value to
its 32-bit `IntVal`, and the one produced parameter has minimum 1 and
maximum 5, raised to the truncated value when that exceeds 5, with the
truncated value as baseline. -/
def replicaParameterParameters (name : ParameterNamer) (p : ReplicaParameter) :
    List ExpParameter :=
  if p.value ≤ 0 then []
  else
    let baselineReplicas := int32Of p.value
    let minReplicas : Int := 1
    let maxReplicas : Int := if 5 < baselineReplicas then baselineReplicas else 5
    [{ name := name p.meta p.fieldPath "replicas",
       min := minReplicas, max := maxReplicas,
       values := [], baseline := some (IntOrString.int baselineReplicas) }]

/- ===== Job builder (internal/trial NewJob) ===== -/

/-- Go `redskyv1beta1.LabelExperiment`. -/
def labelExperiment : String := "redskyops.dev/experiment"

/-- Go `redskyv1beta1.LabelTrial`. -/
def labelTrial : String := "redskyops.dev/trial"

/-- Go `redskyv1beta1.LabelTrialRole`. -/
def labelTrialRole : String := "redskyops.dev/trial-role"

/-- Go `types.StrategicMergePatchType`. -/
def strategicMergePatchType : String := "application/strategic-merge-patch+json"

/-- Modelled from the spec: `IsTrialJobReference` (internal/trial, not under
src/) decides whether a recorded patch operation targets the trial's own,
not-yet-created run job; per §4.4 a self-referential patch "can target the
trial's own run unit", so the target reference must name the batch/v1 Job of
this trial. -/
def isTrialJobReference (t : Trial) (ref : ObjectReference) : Bool :=
  ref.apiVersion == "batch/v1" && ref.kind == "Job" &&
    ref.name == t.name && ref.namespace_ == t.namespace_

/-- Modelled from the spec: `setup.AppendAssignmentEnv` (internal/setup, not
under src/) appends, per §4.4 "every declared assignment is exposed to every
container as an environment variable", one environment variable per declared
assignment, named after the parameter and carrying its value. -/
def assignmentEnvVar (a : Assignment) : EnvVar :=
  { name := a.name,
    value := match a.value with
      | IntOrString.int v => toString v
      | IntOrString.str s => s }

/-- Modelled from the spec: the assignment environment appended to a
container's environment by `setup.AppendAssignmentEnv`. -/
def appendAssignmentEnv (t : Trial) (env : List EnvVar) : List EnvVar :=
  env ++ t.spec.assignments.map assignmentEnvVar

/-- The sleep duration (in seconds) of the placeholder container: the
approximate runtime, two minutes when unset or zero, plus the start-time
offset when one is configured. -/
def trialSleepSeconds (t : Trial) : Nat :=
  let s := match t.spec.approximateRuntime with
    | none => 120
    | some d => if d = 0 then 120 else d
  match t.spec.startTimeOffset with
  | none => s
  | some off => s + off

/-- The busybox placeholder container that sleeps for the given number of
seconds (durations are modelled in whole seconds, so the formatted shell
command carries the second count). -/
def defaultTrialContainer (secs : Nat) : Container :=
  { name := "default-trial-run",
    image := "busybox",
    command := ["/bin/sh"],
    args := ["-c",
      "echo Sleeping for " ++ toString secs ++ "s... && sleep " ++
        toString secs ++ " && echo Done."] }

/-- Go `addDefaultContainer`: replace the (empty) container list with the one
placeholder container. -/
def addDefaultContainer (t : Trial) (job : Job) : Job :=
  { job with spec.template.spec.containers :=
      [defaultTrialContainer (trialSleepSeconds t)] }

/-- The guard of the `patchSelf` loop: the operation targets this trial's
job and is a strategic merge patch. -/
def isSelfPatchOp (t : Trial) (po : PatchOperation) : Bool :=
  isTrialJobReference t po.targetRef && po.patchType == strategicMergePatchType

/-- The loop of `patchSelf`: the first matching patch operation whose whole
marshal-merge-unmarshal pipeline (modelled by `applyPatch`) succeeds
replaces the job; every failure, and every operation of another patch type
or target, is skipped. -/
def patchSelfLoop (applyPatch : Job → String → Option Job) (t : Trial) (job : Job) :
    List PatchOperation → Job
  | [] => job
  | po :: rest =>
    if isSelfPatchOp t po then
      match applyPatch job po.data with
      | some j => j
      | none => patchSelfLoop applyPatch t job rest
    else patchSelfLoop applyPatch t job rest

/-- Go `patchSelf`: best-effort application of a recorded self-patch to the
built job. -/
def patchSelf (applyPatch : Job → String → Option Job) (t : Trial) (job : Job) : Job :=
  patchSelfLoop applyPatch t job t.status.patchOperations

/-- The starting job of `NewJob`: the trial's job template when present,
otherwise an empty job carrying the experiment labels. -/
def initialJob (t : Trial) : Job :=
  match t.spec.jobTemplate with
  | some jt => { name := jt.name, labels := jt.labels, spec := jt.spec }
  | none =>
    let j : Job := {}
    let j := { j with labels := setKV j.labels labelExperiment t.experimentName }
    { j with spec.template.labels := setKV j.spec.template.labels labelExperiment t.experimentName }

/-- The defaulted (not yet self-patched) job of `NewJob`: trial labels and
metadata, restart policy defaulted to `Never`, nil backoff limit replaced by
zero, assignment (and Prometheus, modelled by `promEnv`) environment
variables appended to every template container, and the placeholder
container substituted when the template declares none. -/
def buildJob (promEnv : Trial → List EnvVar) (t : Trial) : Job :=
  let job := initialJob t
  let job := { job with labels := setKV job.labels labelTrial t.name }
  let job := { job with spec.template.labels := setKV job.spec.template.labels labelTrial t.name }
  let job := { job with labels := setKV job.labels labelTrialRole "trialRun" }
  let job := { job with spec.template.labels := setKV job.spec.template.labels labelTrialRole "trialRun" }
  let job := { job with namespace_ := t.namespace_ }
  let job := if job.name = "" then { job with name := t.name } else job
  let job :=
    if job.spec.template.spec.restartPolicy = "" then
      { job with spec.template.spec.restartPolicy := "Never" }
    else job
  let job :=
    match job.spec.backoffLimit with
    | none => { job with spec.backoffLimit := some 0 }
    | some _ => job
  let job := { job with spec.template.spec.containers :=
    job.spec.template.spec.containers.map (fun c =>
      { c with env := appendAssignmentEnv t c.env ++ promEnv t }) }
  if job.spec.template.spec.containers.isEmpty then addDefaultContainer t job else job

/-- Go `NewJob`: build the defaulted job, then apply any recorded self-patch
best-effort. -/
def NewJob (promEnv : Trial → List EnvVar) (applyPatch : Job → String → Option Job)
    (t : Trial) : Job :=
  patchSelf applyPatch t (buildJob promEnv t)

/- ===== Parameter naming (container resources scenarios) ===== -/

/-- One container-resources tunable group: a target resource and the field
paths of the selected containers' `resources` sections (mirroring the
`containerResources` fixtures of `TestParameterNames`). -/
structure ContainerResources where
  targetName : String
  resourcesPaths : List (List String)
deriving DecidableEq, Repr

/-- The container name carried by a filtered path element such as
`[name=test1]`. -/
def pathElementName (path : List String) : String :=
  match path.find? (fun s => "[name=".toList.isPrefixOf s.toList) with
  | some s => String.mk ((s.toList.drop 6).dropLast)
  | none => ""

/-- Modelled from the spec: `parameterNamePrefix` (internal/experiment, not
under src/ — only its test is) builds the resource-level half of the §4.2
prefix table.  Every container-resources group emits the base suffixes
`cpu` and `memory`, so two different target refs would emit colliding names
exactly when more than one group is present; the resource-name token is then
applied to every group. -/
def resourceTokenNeeded (crs : List ContainerResources) : Bool :=
  2 ≤ crs.length

/-- Modelled from the spec: `parameterName` (internal/experiment, not under
src/) names one tunable field per §4.2: the base suffix, preceded by the
container-name discriminator when the same target ref produces the suffix
for more than one container, preceded outermost by the resource-name token
when the prefix table demands it, all joined with underscores. -/
def parameterNameFor (withResourceToken : Bool) (cr : ContainerResources)
    (path : List String) (suffix : String) : String :=
  (if withResourceToken then cr.targetName ++ "_" else "")
    ++ (if 2 ≤ cr.resourcesPaths.length then pathElementName path ++ "_" else "")
    ++ suffix

/-- All generated parameter names of a container-resources set, in the
`cpu`-then-`memory` order the test enumerates. -/
def parameterNamesList (crs : List ContainerResources) : List String :=
  let withToken := resourceTokenNeeded crs
  crs.flatMap (fun cr =>
    cr.resourcesPaths.flatMap (fun path =>
      [parameterNameFor withToken cr path "cpu",
       parameterNameFor withToken cr path "memory"]))

/-- Scenario "one deployment one container" of `TestParameterNames`. -/
def crsOneDeploymentOneContainer : List ContainerResources :=
  [{ targetName := "test",
     resourcesPaths := [["spec", "template", "spec", "containers", "[name=test]", "resources"]] }]

/-- Scenario "one deployment two containers" of `TestParameterNames`. -/
def crsOneDeploymentTwoContainers : List ContainerResources :=
  [{ targetName := "test",
     resourcesPaths :=
       [["spec", "template", "spec", "containers", "[name=test1]", "resources"],
        ["spec", "template", "spec", "containers", "[name=test2]", "resources"]] }]

/-- Scenario "two deployments one container" of `TestParameterNames`. -/
def crsTwoDeploymentsOneContainer : List ContainerResources :=
  [{ targetName := "test1",
     resourcesPaths := [["spec", "template", "spec", "containers", "[name=test]", "resources"]] },
   { targetName := "test2",
     resourcesPaths := [["spec", "template", "spec", "containers", "[name=test]", "resources"]] }]

/-- Scenario "two deployments two containers" of `TestParameterNames`. -/
def crsTwoDeploymentsTwoContainers : List ContainerResources :=
  [{ targetName := "test1",
     resourcesPaths :=
       [["spec", "template", "spec", "containers", "[name=test1]", "resources"],
        ["spec", "template", "spec", "containers", "[name=test2]", "resources"]] },
   { targetName := "test2",
     resourcesPaths := [["spec", "template", "spec", "containers", "[name=test]", "resources"]] }]

/-- Whether an `Except` result is a success (used to state that the loop
body of `FromCluster` raises no error for a given parameter). -/
def exceptOk {ε α : Type} : Except ε α → Bool
  | Except.ok _ => true
  | Except.error _ => false

/-- The successful baseline assignment (if any) produced for one kept
parameter; `none` both for "no baseline" and for the error case. -/
def baselineOpt (p : ExpParameter) : Option RemoteAssignment :=
  match baselineAssignment p with
  | Except.ok r => r
  | Except.error _ => none

/- ===== Concrete fixtures used by the theorems below ===== -/

/-- Local experiment with the duplicate parameter name list `a, a`. -/
def expC1 : Experiment :=
  { name := "e", creationTime := 0, annotations := none, labels := [], finalizers := [],
    spec := { parameters :=
                [{ name := "a", min := 1, max := 2, values := [], baseline := none },
                 { name := "a", min := 1, max := 2, values := [], baseline := none }],
              metrics := [], optimization := [], constraints := [] } }

/-- Remote record with the parameter name list `a, b`. -/
def eeC1 : RemoteExperiment :=
  { lastModified := 0, selfURL := "", nextTrialURL := "", labels := [], optimization := [],
    parameters :=
      [{ type := ParameterType.integer, name := "a", values := [], bounds := none },
       { type := ParameterType.integer, name := "b", values := [], bounds := none }],
    constraints := [], metrics := [] }

/-- Local experiment with distinct parameter names `a, b` and metric `m`. -/
def expC1w : Experiment :=
  { name := "e", creationTime := 0, annotations := none, labels := [], finalizers := [],
    spec := { parameters :=
                [{ name := "a", min := 1, max := 2, values := [], baseline := none },
                 { name := "b", min := 1, max := 2, values := [], baseline := none }],
              metrics := [{ name := "m", minimize := true, optimize := none }],
              optimization := [], constraints := [] } }

/-- Remote record with the same name sets in a different order. -/
def eeC1w : RemoteExperiment :=
  { lastModified := 0, selfURL := "", nextTrialURL := "", labels := [], optimization := [],
    parameters :=
      [{ type := ParameterType.integer, name := "b", values := [], bounds := none },
       { type := ParameterType.integer, name := "a", values := [], bounds := none }],
    constraints := [], metrics := [{ name := "m", minimize := true, optimize := none }] }

/-- A concrete replica parameter node with current value 7. -/
def rpC5 : ReplicaParameter :=
  { meta := { kind := "Deployment", name := "d" }, fieldPath := ["spec", "replicas"], value := 7 }

/-- A concrete namer that returns the suffix unchanged. -/
def namerC5 : ParameterNamer := fun _ _ suffix => suffix

/-- A concrete replica parameter node whose decoded value 2^31 lies just
outside the signed 32-bit range. -/
def rpC5x : ReplicaParameter :=
  { meta := { kind := "Deployment", name := "d" }, fieldPath := ["spec", "replicas"],
    value := 2147483648 }

/-- A concrete trial whose annotations map is nil. -/
def tC10 : Trial := { name := "t" }

/-- A concrete empty suggestion. -/
def suggC10 : TrialAssignments := { labels := [], assignments := [], selfURL := "" }

/-- A concrete trial with an empty (but non-nil) annotations map. -/
def tC2 : Trial := { name := "t", annotations := some [] }

/-- A concrete suggestion carrying the out-of-range value 5,000,000,000. -/
def suggC2 : TrialAssignments :=
  { labels := [],
    assignments := [{ parameterName := "p", value := NumberOrString.num 5000000000 }],
    selfURL := "" }

/-- The trivial float parser used only to instantiate the witness. -/
def parseC3 : String → Option Int := fun _ => none

/-- A concrete failed condition. -/
def condC3 : TrialCondition :=
  { type := trialFailedType, status := conditionTrue, reason := "BuildFailure", message := "boom" }

/-- A concrete trial that failed but still carries a spec value. -/
def tC3 : Trial :=
  { name := "t",
    spec := { values := [{ name := "m", value := "1.0", error := "" }] },
    status := { conditions := [condC3] } }

/-- A concrete strategic-merge patch operation targeting the trial's job. -/
def opC7 : PatchOperation :=
  { targetRef := { kind := "Job", name := "t", namespace_ := "ns", apiVersion := "batch/v1" },
    patchType := strategicMergePatchType, data := "d" }

/-- A concrete trial carrying that one self-patch operation. -/
def tC7 : Trial := { name := "t", namespace_ := "ns", status := { patchOperations := [opC7] } }

/-- A concrete trial with a 60-second start-time offset, default
approximate runtime, no job template and no patch operations. -/
def tC6 : Trial := { name := "t", spec := { startTimeOffset := some 60 } }

/-- A concrete trial with no job template, no durations, no patches. -/
def tC6w : Trial := { name := "t" }

/-- A concrete trial with one declared assignment and no job template. -/
def tC8 : Trial :=
  { name := "t",
    spec := { assignments := [{ name := "a", value := IntOrString.int 1 }] } }

/-- A concrete trial with one assignment and a one-container job template. -/
def tC8w : Trial :=
  { name := "t",
    spec := { assignments := [{ name := "a", value := IntOrString.int 1 }],
              jobTemplate := some { name := "j", labels := [],
                                    spec := { template := { spec := { containers := [{ name := "c" }] } } } } } }

/-- The parameters an experiment actually sends to the remote service (the
ones not omitted client side). -/
def sentParameters (e : Experiment) : List ExpParameter :=
  e.spec.parameters.filter (fun p => !paramOmitted p)

/-- The successful baseline assignments of the sent parameters. -/
def sentBaselines (e : Experiment) : List RemoteAssignment :=
  (sentParameters e).filterMap baselineOpt

/-- A concrete experiment whose single sent parameter carries an
out-of-range baseline (10 outside [1, 5]). -/
def expC4 : Experiment :=
  { name := "e", creationTime := 0, annotations := none, labels := [], finalizers := [],
    spec := { parameters :=
                [{ name := "a", min := 1, max := 5, values := [], baseline := some (IntOrString.int 10) }],
              metrics := [], optimization := [], constraints := [] } }

/-- A concrete experiment with an integer and a categorical parameter, both
carrying valid baselines. -/
def expC4w : Experiment :=
  { name := "e", creationTime := 0, annotations := none, labels := [], finalizers := [],
    spec := { parameters :=
                [{ name := "a", min := 1, max := 5, values := [], baseline := some (IntOrString.int 2) },
                 { name := "b", min := 0, max := 0, values := ["x", "y"],
                   baseline := some (IntOrString.str "x") }],
              metrics := [], optimization := [], constraints := [] } }

/- ===================================================================== -/
/- ============================ Theorems =============================== -/
/- ===================================================================== -/

/-- Folding `Finset.erase` of the images of a list over a starting set is
set difference with the image's finset (Go's per-key `delete` loop). -/
theorem foldl_erase_eq_sdiff {β : Type} (f : β → String) (l : List β) (s : Finset String) :
    l.foldl (fun acc x => acc.erase (f x)) s = s \ (l.map f).toFinset := by
  induction l generalizing s with
  | nil => simp
  | cons x l ih =>
    simp only [List.foldl_cons, List.map_cons, List.toFinset_cons, ih]
    ext a
    simp only [Finset.mem_sdiff, Finset.mem_erase, Finset.mem_insert]
    tauto

/-- For duplicate-free name lists, passing the Go length-plus-containment
check is the same as name-set equality. -/
theorem length_and_sdiff_iff_eq (L R : List String) (hL : L.Nodup) (hR : R.Nodup) :
    (L.length = R.length ∧ L.toFinset \ R.toFinset = ∅) ↔ L.toFinset = R.toFinset := by
  constructor
  · rintro ⟨hlen, hdiff⟩
    have hsub : L.toFinset ⊆ R.toFinset := Finset.sdiff_eq_empty_iff_subset.mp hdiff
    have hcards : R.toFinset.card ≤ L.toFinset.card := by
      rw [List.toFinset_card_of_nodup hL, List.toFinset_card_of_nodup hR, hlen]
    exact Finset.eq_of_subset_of_card_le hsub hcards
  · intro h
    refine ⟨?_, by rw [h]; exact Finset.sdiff_self _⟩
    rw [← List.toFinset_card_of_nodup hL, ← List.toFinset_card_of_nodup hR, h]

/-- C1 (amended): provided each side declares pairwise-distinct parameter
names and pairwise-distinct metric names, `CheckDefinition` succeeds exactly
when the local and remote parameter-name sets are equal and the local and
remote metric-name sets are equal; in particular, same-cardinality name
sets that differ still fail. -/
theorem CheckDefinition_ok_iff_name_sets_eq (exp : Experiment) (ee : RemoteExperiment)
    (hp : (exp.spec.parameters.map (fun p => p.name)).Nodup)
    (hp' : (ee.parameters.map (fun p => p.name)).Nodup)
    (hm : (exp.spec.metrics.map (fun m => m.name)).Nodup)
    (hm' : (ee.metrics.map (fun m => m.name)).Nodup) :
    CheckDefinition exp ee = Except.ok () ↔
      ((exp.spec.parameters.map (fun p => p.name)).toFinset =
          (ee.parameters.map (fun p => p.name)).toFinset ∧
        (exp.spec.metrics.map (fun m => m.name)).toFinset =
          (ee.metrics.map (fun m => m.name)).toFinset) := by
  have keyP := length_and_sdiff_iff_eq (exp.spec.parameters.map (fun p => p.name))
    (ee.parameters.map (fun p => p.name)) hp hp'
  have keyM := length_and_sdiff_iff_eq (exp.spec.metrics.map (fun m => m.name))
    (ee.metrics.map (fun m => m.name)) hm hm'
  have foldP : ee.parameters.foldl (fun s p => s.erase p.name)
      (exp.spec.parameters.map (fun p => p.name)).toFinset =
      (exp.spec.parameters.map (fun p => p.name)).toFinset \
        (ee.parameters.map (fun p => p.name)).toFinset :=
    foldl_erase_eq_sdiff (fun p => p.name) ee.parameters _
  have foldM : ee.metrics.foldl (fun s m => s.erase m.name)
      (exp.spec.metrics.map (fun m => m.name)).toFinset =
      (exp.spec.metrics.map (fun m => m.name)).toFinset \
        (ee.metrics.map (fun m => m.name)).toFinset :=
    foldl_erase_eq_sdiff (fun m => m.name) ee.metrics _
  have lenP : (exp.spec.parameters.map (fun p => p.name)).length = exp.spec.parameters.length :=
    List.length_map _ _
  have lenP' : (ee.parameters.map (fun p => p.name)).length = ee.parameters.length :=
    List.length_map _ _
  have lenM : (exp.spec.metrics.map (fun m => m.name)).length = exp.spec.metrics.length :=
    List.length_map _ _
  have lenM' : (ee.metrics.map (fun m => m.name)).length = ee.metrics.length :=
    List.length_map _ _
  simp only [CheckDefinition, foldP, foldM]
  split_ifs with h1 h2 h3 h4
  · -- lengths equal, leftover parameter names: check errors, sets differ
    simp only [false_iff, reduceCtorEq]
    intro hcontra
    have : (exp.spec.parameters.map (fun p => p.name)).toFinset \
        (ee.parameters.map (fun p => p.name)).toFinset = ∅ := by
      rw [hcontra.1]; exact Finset.sdiff_self _
    rw [this] at h2
    simp at h2
  · -- parameters pass, metric lengths equal, leftover metric names
    simp only [false_iff, reduceCtorEq]
    intro hcontra
    have : (exp.spec.metrics.map (fun m => m.name)).toFinset \
        (ee.metrics.map (fun m => m.name)).toFinset = ∅ := by
      rw [hcontra.2]; exact Finset.sdiff_self _
    rw [this] at h4
    simp at h4
  · -- both checks pass: sets are equal on both sides
    simp only [true_iff]
    constructor
    · exact keyP.mp ⟨by rw [lenP, lenP']; exact h1, by
        rcases Finset.eq_empty_or_nonempty
          ((exp.spec.parameters.map (fun p => p.name)).toFinset \
            (ee.parameters.map (fun p => p.name)).toFinset) with he | hne
        · exact he
        · exact absurd (Finset.card_pos.mpr hne) (by omega)⟩
    · exact keyM.mp ⟨by rw [lenM, lenM']; exact h3, by
        rcases Finset.eq_empty_or_nonempty
          ((exp.spec.metrics.map (fun m => m.name)).toFinset \
            (ee.metrics.map (fun m => m.name)).toFinset) with he | hne
        · exact he
        · exact absurd (Finset.card_pos.mpr hne) (by omega)⟩
  · -- parameters pass but metric lengths differ: metric sets cannot be equal
    simp only [false_iff, reduceCtorEq]
    intro hcontra
    exact h3 (by rw [← lenM, ← lenM']; exact (keyM.mpr hcontra.2).1)
  · -- parameter lengths differ: parameter sets cannot be equal
    simp only [false_iff, reduceCtorEq]
    intro hcontra
    exact h1 (by rw [← lenP, ← lenP']; exact (keyP.mpr hcontra.1).1)

/-- C1 (counterexample): with local parameter names `a, a` and remote
parameter names `a, b` (equal cardinality, different name sets, equal
metric sets) the check succeeds, so success is not equivalent to
name-set equality as claimed. -/
theorem CheckDefinition_accepts_differing_name_sets :
    CheckDefinition expC1 eeC1 = Except.ok () ∧
      (expC1.spec.parameters.map (fun p => p.name)).toFinset ≠
        (eeC1.parameters.map (fun p => p.name)).toFinset := by
  constructor
  · rfl
  · decide

/-- C1 (witness): the amended equivalence at a concrete compatible pair. -/
theorem CheckDefinition_ok_iff_name_sets_eq_witness :
    CheckDefinition expC1w eeC1w = Except.ok () :=
  (CheckDefinition_ok_iff_name_sets_eq expC1w eeC1w
    (by decide) (by decide) (by decide) (by decide)).mpr (by decide)

/-- C9: the generated parameter names match the spec's scenario table: no
disambiguation for a single resource with one container; container-name
discriminators for two containers on one resource; resource-name
discriminators for two single-container resources; and when one of two
resources has two containers, that resource's names are double-prefixed
while the single-container resource keeps a single prefix. -/
theorem parameterNames_scenarios :
    parameterNamesList crsOneDeploymentOneContainer = ["cpu", "memory"] ∧
    parameterNamesList crsOneDeploymentTwoContainers =
      ["test1_cpu", "test1_memory", "test2_cpu", "test2_memory"] ∧
    parameterNamesList crsTwoDeploymentsOneContainer =
      ["test1_cpu", "test1_memory", "test2_cpu", "test2_memory"] ∧
    parameterNamesList crsTwoDeploymentsTwoContainers =
      ["test1_test1_cpu", "test1_test1_memory", "test1_test2_cpu", "test1_test2_memory",
       "test2_cpu", "test2_memory"] := by
  refine ⟨?_, ?_, ?_, ?_⟩ <;> decide

/-- C5 (counterexample): at the decoded value 2^31 the `int32` truncation of
`intstr.FromInt` wraps to -2^31, so the produced parameter has maximum 5 and
baseline -2147483648 instead of the claimed `max 5 v = 2^31` — the claimed
bound fails outside the signed 32-bit range. -/
theorem replicaParameter_wraps_at_int32 :
    replicaParameterParameters namerC5 rpC5x =
      [{ name := "replicas", min := 1, max := 5, values := [],
         baseline := some (IntOrString.int (-2147483648)) }] ∧
    (5 : Int) ≠ max 5 (2147483648 : Int) := by
  exact ⟨by decide, by decide⟩

/-- C5 (amended): for a replica field whose decoded current value `v` lies
within the signed 32-bit range (as every well-formed Kubernetes replica
field does), the replica selector produces exactly one parameter with
minimum 1 and maximum `max 5 v` (so the upper bound is raised to `v` only
when `v` exceeds 5) when `0 < v`, and no parameter and no error at all when
`v ≤ 0`. -/
theorem replicaParameter_Parameters_bounds (name : ParameterNamer) (p : ReplicaParameter)
    (hrange : p.value < 2147483648) :
    (p.value ≤ 0 → replicaParameterParameters name p = []) ∧
    (0 < p.value →
      replicaParameterParameters name p =
        [{ name := name p.meta p.fieldPath "replicas",
           min := 1, max := max 5 p.value,
           values := [], baseline := some (IntOrString.int p.value) }]) := by
  constructor
  · intro h
    simp only [replicaParameterParameters, if_pos h]
  · intro h
    have hwrap : int32Of p.value = p.value := by
      unfold int32Of
      rw [Int.emod_eq_of_lt (by omega) (by omega)]
      omega
    simp only [replicaParameterParameters, if_neg (by omega : ¬ p.value ≤ 0), hwrap]
    by_cases h5 : 5 < p.value
    · rw [if_pos h5, max_eq_right (by omega : (5 : Int) ≤ p.value)]
    · rw [if_neg h5, max_eq_left (by omega : p.value ≤ (5 : Int))]

/-- C5 (witness): the amended theorem applied at the in-range value
7 > 5 (bound raised to 7). -/
theorem replicaParameter_Parameters_bounds_witness :
    (0 : Int) < 7 ∧
      replicaParameterParameters namerC5 rpC5 =
        [{ name := "replicas", min := 1, max := 7, values := [],
           baseline := some (IntOrString.int 7) }] := by
  refine ⟨by decide, ?_⟩
  have h := (replicaParameter_Parameters_bounds namerC5 rpC5 (by decide)).2 (by decide)
  simpa using h

/-- C10: `ToClusterTrial` writes the report-trial URL into the trial's
annotations map without creating it, so a nil annotations map faults (the
`none` result) instead of returning normally; with any non-nil annotations
map the operation returns normally, and the experiment-side `ToCluster`
initializes a nil annotations map instead of faulting. -/
theorem ToClusterTrial_nil_annotations_faults (us : Trial → Trial) (t : Trial)
    (sugg : TrialAssignments) :
    (t.annotations = none → ToClusterTrial us t sugg = none) ∧
    (∀ ann, t.annotations = some ann → (ToClusterTrial us t sugg).isSome = true) ∧
    (∀ (exp : Experiment) (ee : RemoteExperiment), (ToCluster exp ee).annotations.isSome = true) := by
  refine ⟨?_, ?_, ?_⟩
  · intro h
    simp only [ToClusterTrial, h]
  · intro ann h
    simp only [ToClusterTrial, h, Option.isSome_some]
  · intro exp ee
    simp only [ToCluster, Option.isSome_some]

/-- C10 (witness): the theorem applied at a concrete nil-annotations trial. -/
theorem ToClusterTrial_nil_annotations_faults_witness :
    ToClusterTrial id tC10 suggC10 = none :=
  (ToClusterTrial_nil_annotations_faults id tC10 suggC10).1 rfl

/-- C2: `ToClusterTrial` appends every remote assignment to the trial's
assignment list and never fails on a numeric value: a value above
`math.MaxInt32` is stored as exactly `MaxInt32`, a value below
`math.MinInt32` as exactly `MinInt32`, and an in-range value unchanged.
(`trial.UpdateStatus` is outside the embedded slice; it only rewrites
status, which `hus` records.) -/
theorem ToClusterTrial_clamps_assignments (us : Trial → Trial)
    (hus : ∀ tr, (us tr).spec = tr.spec)
    (t : Trial) (sugg : TrialAssignments) (ann : List (String × String))
    (hann : t.annotations = some ann) :
    (∃ t', ToClusterTrial us t sugg = some t' ∧
      t'.spec.assignments = t.spec.assignments ++ sugg.assignments.map toClusterAssignment) ∧
    (∀ (n : String) (v : Int),
      (maxInt32 < v →
        toClusterAssignment { parameterName := n, value := NumberOrString.num v } =
          { name := n, value := IntOrString.int maxInt32 }) ∧
      (v < minInt32 →
        toClusterAssignment { parameterName := n, value := NumberOrString.num v } =
          { name := n, value := IntOrString.int minInt32 }) ∧
      (minInt32 ≤ v → v ≤ maxInt32 →
        toClusterAssignment { parameterName := n, value := NumberOrString.num v } =
          { name := n, value := IntOrString.int v })) := by
  constructor
  · simp only [ToClusterTrial, hann]
    refine ⟨_, rfl, ?_⟩
    simp only [hus]
    split <;> simp [hus] <;> split <;> simp
  · intro n v
    refine ⟨?_, ?_, ?_⟩
    · intro h
      simp only [toClusterAssignment, toClusterAssignmentValue, if_pos h]
    · intro h
      have hnot : ¬ maxInt32 < v := by simp only [maxInt32, minInt32] at *; omega
      simp only [toClusterAssignment, toClusterAssignmentValue, if_neg hnot, if_pos h]
    · intro h1 h2
      have hnot : ¬ maxInt32 < v := by omega
      have hnot2 : ¬ v < minInt32 := by omega
      simp only [toClusterAssignment, toClusterAssignmentValue, if_neg hnot, if_neg hnot2]

/-- C2 (witness): the value 5,000,000,000 is stored as 2,147,483,647 and the
conversion still returns normally. -/
theorem ToClusterTrial_clamps_assignments_witness :
    (toClusterAssignment { parameterName := "p", value := NumberOrString.num 5000000000 } =
      { name := "p", value := IntOrString.int 2147483647 }) ∧
    ∃ t', ToClusterTrial id tC2 suggC2 = some t' ∧
      t'.spec.assignments = tC2.spec.assignments ++ suggC2.assignments.map toClusterAssignment := by
  have H := ToClusterTrial_clamps_assignments id (fun _ => rfl) tC2 suggC2 [] rfl
  exact ⟨(H.2 "p" 5000000000).1 (by decide), H.1⟩

/-- The condition scan of `FromClusterTrial` keeps the initial accumulator
unless a failed condition occurs, in which case it carries the last failed
condition's data (the last write of the Go loop wins). -/
theorem foldl_failedFoldStep_eq (conds : List TrialCondition) (init : Bool × String × String) :
    conds.foldl failedFoldStep init =
      ((conds.reverse.find? isFailedCond).map
        (fun c => (true, c.reason, c.message))).getD init := by
  induction conds generalizing init with
  | nil => rfl
  | cons c l ih =>
    rw [List.foldl_cons, ih (failedFoldStep init c)]
    rw [List.reverse_cons, List.find?_append]
    cases hfind : l.reverse.find? isFailedCond with
    | some c0 => rfl
    | none =>
      simp only [Option.none_or]
      cases hc : isFailedCond c with
      | true => simp [List.find?, hc, failedFoldStep]
      | false => simp [List.find?, hc, failedFoldStep]

/-- C3: the wire record of `FromClusterTrial` carries values and failure
metadata mutually exclusively.  When some status condition marks the trial
failed, the failed flag is set, the values list is empty and the reason and
message come from a (the last) failed condition; otherwise the failed flag
is unset and the collected metric values are reported. -/
theorem FromClusterTrial_values_failure_exclusive {α : Type}
    (parse : String → Option α) (t : Trial) :
    ((∃ c ∈ t.status.conditions, isFailedCond c = true) →
      (FromClusterTrial parse t).failed = true ∧
      (FromClusterTrial parse t).values = [] ∧
      ∃ c ∈ t.status.conditions, isFailedCond c = true ∧
        (FromClusterTrial parse t).failureReason = c.reason ∧
        (FromClusterTrial parse t).failureMessage = c.message) ∧
    ((∀ c ∈ t.status.conditions, isFailedCond c = false) →
      (FromClusterTrial parse t).failed = false ∧
      (FromClusterTrial parse t).values = collectValues parse t.spec.values) := by
  have hfold := foldl_failedFoldStep_eq t.status.conditions (false, "", "")
  constructor
  · rintro ⟨c, hc, hfc⟩
    have hsome : (t.status.conditions.reverse.find? isFailedCond).isSome = true :=
      List.find?_isSome.mpr ⟨c, List.mem_reverse.mpr hc, hfc⟩
    obtain ⟨c0, hc0⟩ := Option.isSome_iff_exists.mp hsome
    have hmem : c0 ∈ t.status.conditions :=
      List.mem_reverse.mp (List.mem_of_find?_eq_some hc0)
    have hfc0 : isFailedCond c0 = true := List.find?_some hc0
    simp only [FromClusterTrial, hfold, hc0, Option.map_some, Option.getD_some]
    exact ⟨rfl, rfl, c0, hmem, hfc0, rfl, rfl⟩
  · intro h
    have hnone : t.status.conditions.reverse.find? isFailedCond = none :=
      List.find?_eq_none.mpr (fun x hx => by simp [h x (List.mem_reverse.mp hx)])
    simp only [FromClusterTrial, hfold, hnone, Option.map_none, Option.getD_none]
    exact ⟨rfl, rfl⟩

/-- C3 (witness): the theorem applied at a concrete failed trial: the failed
flag is set and no values are reported. -/
theorem FromClusterTrial_values_failure_exclusive_witness :
    (FromClusterTrial parseC3 tC3).failed = true ∧
    (FromClusterTrial parseC3 tC3).values = [] ∧
    ∃ c ∈ tC3.status.conditions, isFailedCond c = true ∧
      (FromClusterTrial parseC3 tC3).failureReason = c.reason ∧
      (FromClusterTrial parseC3 tC3).failureMessage = c.message :=
  (FromClusterTrial_values_failure_exclusive parseC3 tC3).1
    ⟨condC3, by decide, by decide⟩

/-- When every matching self-patch operation fails to apply, the patch loop
returns the unpatched job. -/
theorem patchSelfLoop_all_fail (ap : Job → String → Option Job) (t : Trial) (job : Job)
    (ops : List PatchOperation)
    (h : ∀ po ∈ ops, isSelfPatchOp t po = true → ap job po.data = none) :
    patchSelfLoop ap t job ops = job := by
  induction ops with
  | nil => rfl
  | cons po rest ih =>
    cases hm : isSelfPatchOp t po with
    | true =>
      simp only [patchSelfLoop, hm, if_true, h po (List.mem_cons_self po rest) hm]
      exact ih (fun q hq hmq => h q (List.mem_cons_of_mem po hq) hmq)
    | false =>
      simp only [patchSelfLoop, hm, Bool.false_eq_true, if_false]
      exact ih (fun q hq hmq => h q (List.mem_cons_of_mem po hq) hmq)

/-- When exactly one operation matches the self-patch guard and its
application succeeds, the patch loop returns the patched job. -/
theorem patchSelfLoop_unique_success (ap : Job → String → Option Job) (t : Trial) (job : Job)
    (ops : List PatchOperation) (po : PatchOperation) (j : Job)
    (hf : ops.filter (fun po => isSelfPatchOp t po) = [po])
    (hs : ap job po.data = some j) :
    patchSelfLoop ap t job ops = j := by
  induction ops with
  | nil => simp at hf
  | cons o rest ih =>
    cases hm : isSelfPatchOp t o with
    | true =>
      rw [List.filter_cons_of_pos hm] at hf
      obtain ⟨rfl, hrest⟩ : o = po ∧ rest.filter (fun po => isSelfPatchOp t po) = [] := by
        simpa using hf
      simp only [patchSelfLoop, hm, if_true, hs]
    | false =>
      rw [List.filter_cons_of_neg (by simp [hm])] at hf
      simp only [patchSelfLoop, hm, Bool.false_eq_true, if_false]
      exact ih hf

/-- C7: the self-patch of `NewJob` is best-effort.  When every matching
strategic-merge self-patch fails anywhere in its
serialize-merge-deserialize pipeline, `NewJob` returns the unpatched built
job (no error path exists); when the single matching operation applies
successfully the patched job is returned; operations of another patch type
or target never participate (they are removed by the guard's filter). -/
theorem NewJob_patchSelf_best_effort (promEnv : Trial → List EnvVar)
    (ap : Job → String → Option Job) (t : Trial) :
    ((∀ po ∈ t.status.patchOperations, isSelfPatchOp t po = true →
        ap (buildJob promEnv t) po.data = none) →
      NewJob promEnv ap t = buildJob promEnv t) ∧
    (∀ po j, t.status.patchOperations.filter (fun po => isSelfPatchOp t po) = [po] →
      ap (buildJob promEnv t) po.data = some j →
      NewJob promEnv ap t = j) :=
  ⟨fun h => patchSelfLoop_all_fail ap t (buildJob promEnv t) t.status.patchOperations h,
   fun po j hf hs =>
     patchSelfLoop_unique_success ap t (buildJob promEnv t) t.status.patchOperations po j hf hs⟩

/-- C7 (witness): with an applier that always fails, `NewJob` at the
concrete trial returns the unpatched built job. -/
theorem NewJob_patchSelf_best_effort_witness :
    isSelfPatchOp tC7 opC7 = true ∧
      NewJob (fun _ => []) (fun _ _ => none) tC7 = buildJob (fun _ => []) tC7 :=
  ⟨by decide,
   (NewJob_patchSelf_best_effort (fun _ => []) (fun _ _ => none) tC7).1 (fun _ _ _ => rfl)⟩

/-- Field characterization of the defaulted job: the restart policy is
`Never` exactly when the template left it empty, a nil backoff limit becomes
zero, and the containers are the template's containers with the assignment
environment appended, or the single placeholder when the template declares
none. -/
theorem buildJob_fields (promEnv : Trial → List EnvVar) (t : Trial) :
    (buildJob promEnv t).spec.template.spec.restartPolicy =
      (if (initialJob t).spec.template.spec.restartPolicy = "" then "Never"
       else (initialJob t).spec.template.spec.restartPolicy) ∧
    (buildJob promEnv t).spec.backoffLimit =
      (match (initialJob t).spec.backoffLimit with
        | none => some 0
        | some b => some b) ∧
    (buildJob promEnv t).spec.template.spec.containers =
      (if (initialJob t).spec.template.spec.containers.isEmpty
       then [defaultTrialContainer (trialSleepSeconds t)]
       else (initialJob t).spec.template.spec.containers.map (fun c =>
         { c with env := appendAssignmentEnv t c.env ++ promEnv t })) := by
  simp only [buildJob, addDefaultContainer]
  split <;> split <;> split <;> split <;>
    simp_all [List.isEmpty_iff, List.map_eq_nil_iff]

/-- C6 (counterexample): with a configured start-time offset of 60 seconds
the placeholder container sleeps for 180 seconds, not the claimed
approximate-runtime default of 120 seconds (the offset is added on top). -/
theorem NewJob_sleep_includes_offset :
    tC6.spec.approximateRuntime = none ∧
    tC6.status.patchOperations = [] ∧
    (NewJob (fun _ => []) (fun _ _ => none) tC6).spec.template.spec.containers =
      [defaultTrialContainer 180] ∧
    defaultTrialContainer 180 ≠ defaultTrialContainer 120 := by
  exact ⟨rfl, rfl, by decide, by decide⟩

/-- C6 (amended): for every trial none of whose recorded patch operations is
applied (here: no recorded operations at all), the job returned by `NewJob`
has restart policy `Never` whenever the starting template leaves it empty,
a non-nil backoff limit equal to zero whenever the template's is nil, and,
whenever the template declares zero containers, exactly one placeholder
container sleeping for the approximate runtime (two minutes when unset)
plus the configured start-time offset. -/
theorem NewJob_defaults (promEnv : Trial → List EnvVar)
    (ap : Job → String → Option Job) (t : Trial)
    (hpo : t.status.patchOperations = []) :
    ((initialJob t).spec.template.spec.restartPolicy = "" →
      (NewJob promEnv ap t).spec.template.spec.restartPolicy = "Never") ∧
    ((initialJob t).spec.backoffLimit = none →
      (NewJob promEnv ap t).spec.backoffLimit = some 0) ∧
    ((initialJob t).spec.template.spec.containers = [] →
      (NewJob promEnv ap t).spec.template.spec.containers =
        [defaultTrialContainer (trialSleepSeconds t)]) := by
  have hnj : NewJob promEnv ap t = buildJob promEnv t := by
    simp only [NewJob, patchSelf, hpo, patchSelfLoop]
  have hf := buildJob_fields promEnv t
  refine ⟨?_, ?_, ?_⟩
  · intro h
    rw [hnj, hf.1, if_pos h]
  · intro h
    rw [hnj, hf.2.1, h]
  · intro h
    rw [hnj, hf.2.2, if_pos (by simp [h])]

/-- C6 (witness): the amended theorem at a concrete empty-template trial:
restart policy `Never`, backoff limit zero, one placeholder container
sleeping the default 120 seconds. -/
theorem NewJob_defaults_witness :
    (NewJob (fun _ => []) (fun _ _ => none) tC6w).spec.template.spec.restartPolicy = "Never" ∧
    (NewJob (fun _ => []) (fun _ _ => none) tC6w).spec.backoffLimit = some 0 ∧
    (NewJob (fun _ => []) (fun _ _ => none) tC6w).spec.template.spec.containers =
      [defaultTrialContainer 120] := by
  have H := NewJob_defaults (fun _ => []) (fun _ _ => none) tC6w rfl
  exact ⟨H.1 (by decide), H.2.1 (by decide), H.2.2 (by decide)⟩

/-- C8 (counterexample): the trial declares an assignment, yet the
placeholder container substituted for the empty template carries no
environment variables at all (the env loop runs before the placeholder is
added), so the assignment is not exposed in every container of the
returned job. -/
theorem NewJob_placeholder_missing_env :
    tC8.spec.assignments = [{ name := "a", value := IntOrString.int 1 }] ∧
    (NewJob (fun _ => []) (fun _ _ => none) tC8).spec.template.spec.containers =
      [defaultTrialContainer 120] ∧
    (defaultTrialContainer 120).env = [] := by
  exact ⟨rfl, by decide, rfl⟩

/-- C8 (amended): for every trial whose recorded patch operations are empty
and whose starting template declares at least one container, every declared
assignment is exposed as an environment variable in every container of the
returned job; the placeholder container (substituted only when the template
declares no containers) receives none. -/
theorem NewJob_assignments_env (promEnv : Trial → List EnvVar)
    (ap : Job → String → Option Job) (t : Trial)
    (hpo : t.status.patchOperations = [])
    (hne : (initialJob t).spec.template.spec.containers ≠ []) :
    ∀ c ∈ (NewJob promEnv ap t).spec.template.spec.containers,
      ∀ a ∈ t.spec.assignments, assignmentEnvVar a ∈ c.env := by
  have hnj : NewJob promEnv ap t = buildJob promEnv t := by
    simp only [NewJob, patchSelf, hpo, patchSelfLoop]
  rw [hnj, (buildJob_fields promEnv t).2.2, if_neg (by simp [List.isEmpty_iff, hne])]
  intro c hc a ha
  obtain ⟨c0, hc0, rfl⟩ := List.mem_map.mp hc
  simp only [appendAssignmentEnv]
  exact List.mem_append_left _ (List.mem_append_right _ (List.mem_map_of_mem _ ha))

/-- C8 (witness): the amended theorem at the concrete trial: the assignment
environment variable is present in the single template container of the
returned job. -/
theorem NewJob_assignments_env_witness :
    assignmentEnvVar { name := "a", value := IntOrString.int 1 } ∈
      (((NewJob (fun _ => []) (fun _ _ => none) tC8w).spec.template.spec.containers.headD {}).env) :=
  NewJob_assignments_env (fun _ => []) (fun _ _ => none) tC8w rfl (by decide)
    _ (by decide) _ (by decide)

/-- A successful baseline assignment carries the parameter's own name. -/
theorem baselineAssignment_name (p : ExpParameter) (r : RemoteAssignment)
    (h : baselineAssignment p = Except.ok (some r)) : r.parameterName = p.name := by
  unfold baselineAssignment at h
  cases hb : p.baseline with
  | none => rw [hb] at h; simp at h
  | some v =>
    cases v with
    | str vs =>
      simp only [hb] at h
      by_cases hin : stringSliceContains p.values vs = true
      · rw [if_pos hin] at h
        simp only [Except.ok.injEq, Option.some.injEq] at h
        rw [← h]
      · rw [if_neg hin] at h
        simp at h
    | int vi =>
      simp only [hb] at h
      by_cases hlt : (decide (vi < p.min) || decide (vi > p.max)) = true
      · rw [if_pos hlt] at h
        simp at h
      · rw [if_neg hlt] at h
        simp only [Except.ok.injEq, Option.some.injEq] at h
        rw [← h]

/-- When the baseline handling of a parameter raises no error it returns
exactly `baselineOpt`. -/
theorem baselineAssignment_eq_ok (p : ExpParameter)
    (h : exceptOk (baselineAssignment p) = true) :
    baselineAssignment p = Except.ok (baselineOpt p) := by
  cases hba : baselineAssignment p with
  | ok r => simp [baselineOpt, hba]
  | error m => rw [hba] at h; simp [exceptOk] at h

/-- The name carried by `baselineOpt` is the parameter's own name. -/
theorem baselineOpt_name (p : ExpParameter) (r : RemoteAssignment)
    (h : baselineOpt p = some r) : r.parameterName = p.name := by
  cases hba : baselineAssignment p with
  | ok a =>
    have : a = some r := by simpa [baselineOpt, hba] using h
    exact baselineAssignment_name p r (by rw [hba, this])
  | error m => simp [baselineOpt, hba] at h

/-- The parameter loop of `FromCluster`, when no per-parameter error occurs:
the kept parameters are translated in order and the baseline assignments
are the kept parameters' successful baselines in order. -/
theorem processParameters_eq (ps : List ExpParameter)
    (hv : ∀ p ∈ ps, paramOmitted p = false → exceptOk (baselineAssignment p) = true) :
    processParameters ps = Except.ok
      ((ps.filter (fun p => !paramOmitted p)).map toRemoteParameter,
       (ps.filter (fun p => !paramOmitted p)).filterMap baselineOpt) := by
  induction ps with
  | nil => rfl
  | cons p rest ih =>
    have ihr := ih (fun q hq hoq => hv q (List.mem_cons_of_mem p hq) hoq)
    cases ho : paramOmitted p with
    | true =>
      simp only [processParameters, ho, if_true]
      rw [List.filter_cons_of_neg (by simp [ho])]
      exact ihr
    | false =>
      have hba := baselineAssignment_eq_ok p (hv p (List.mem_cons_self p rest) ho)
      simp only [processParameters, ho, Bool.false_eq_true, if_false]
      rw [List.filter_cons_of_pos (by simp [ho])]
      simp only [hba, ihr, Except.bind, bind]
      cases hbo : baselineOpt p with
      | none => simp [List.filterMap_cons, hbo]
      | some r => simp [List.filterMap_cons, hbo]

/-- When every kept parameter produced a baseline assignment, the
assignment names enumerate the kept parameter names in order. -/
theorem filterMap_baselineOpt_names (l : List ExpParameter)
    (h : (l.filterMap baselineOpt).length = l.length) :
    (l.filterMap baselineOpt).map (fun a => a.parameterName) = l.map (fun p => p.name) := by
  induction l with
  | nil => rfl
  | cons p rest ih =>
    cases hbo : baselineOpt p with
    | none =>
      exfalso
      rw [List.filterMap_cons, hbo] at h
      have := List.length_filterMap_le baselineOpt rest
      simp only [List.length_cons] at h
      omega
    | some r =>
      rw [List.filterMap_cons, hbo] at h ⊢
      simp only [List.length_cons] at h
      simp only [List.map_cons, baselineOpt_name p r hbo]
      rw [ih (by omega)]

/-- C4 (amended): provided every baseline declared on a sent parameter is
within range (a member of the declared values for a categorical parameter,
within `[min, max]` for an integer parameter), `FromCluster` returns a
fatal error when a baseline is present on at least one but not all of the
sent parameters, and otherwise succeeds with either no baseline assignment
or a baseline assignment covering every sent parameter. -/
theorem FromCluster_baseline_all_or_none (e : Experiment)
    (hv : ∀ p ∈ e.spec.parameters, paramOmitted p = false →
      exceptOk (baselineAssignment p) = true) :
    ((sentBaselines e).length = 0 →
      ∃ n out, FromCluster e = Except.ok (n, out, none)) ∧
    (0 < (sentBaselines e).length → (sentBaselines e).length < (sentParameters e).length →
      ∃ msg, FromCluster e = Except.error msg) ∧
    (0 < (sentBaselines e).length → (sentBaselines e).length = (sentParameters e).length →
      ∃ n out b, FromCluster e = Except.ok (n, out, some b) ∧
        b.assignments.map (fun a => a.parameterName) =
          (sentParameters e).map (fun p => p.name)) := by
  have hpp := processParameters_eq e.spec.parameters hv
  refine ⟨?_, ?_, ?_⟩
  · intro h0
    simp only [sentBaselines, sentParameters] at h0
    simp only [FromCluster, hpp, Except.bind, bind]
    rw [if_pos h0]
    exact ⟨_, _, rfl⟩
  · intro hpos hlt
    simp only [sentBaselines, sentParameters] at hpos hlt
    simp only [FromCluster, hpp, Except.bind, bind]
    rw [if_neg (by omega), if_pos (by simp only [List.length_map]; omega)]
    exact ⟨_, rfl⟩
  · intro hpos heq
    simp only [sentBaselines, sentParameters] at hpos heq
    simp only [FromCluster, hpp, Except.bind, bind]
    rw [if_neg (by omega), if_neg (by simp only [List.length_map, ne_eq, not_not]; omega)]
    refine ⟨e.name, _, _, rfl, ?_⟩
    exact filterMap_baselineOpt_names _ heq

/-- C4 (counterexample): a baseline is present on every sent parameter
(none is missing), yet the conversion returns a fatal error because the
baseline value is out of range — so "otherwise it succeeds" does not hold
as claimed. -/
theorem FromCluster_full_baseline_can_error :
    (∀ p ∈ expC4.spec.parameters, paramOmitted p = false ∧ p.baseline.isSome = true) ∧
    FromCluster expC4 = Except.error "baseline out of range for parameter 'a'" := by
  exact ⟨by decide, rfl⟩

/-- C4 (witness): the amended theorem at a concrete fully-baselined
experiment: conversion succeeds and the baseline covers every sent
parameter. -/
theorem FromCluster_baseline_all_or_none_witness :
    0 < (sentBaselines expC4w).length ∧
    ∃ n out b, FromCluster expC4w = Except.ok (n, out, some b) ∧
      b.assignments.map (fun a => a.parameterName) =
        (sentParameters expC4w).map (fun p => p.name) := by
  have H := FromCluster_baseline_all_or_none expC4w (by decide)
  exact ⟨by decide, H.2.2 (by decide) (by decide)⟩
